import Mathlib

/-!
Shallow embedding of the chat/upload session controller in
`src/frontend/screens/Signup.js` (the `ChatScreen` component).

The component's React state hooks become the fields of `ChatState`;
each handler (`uploadFileToServer`, `sendMessage`, the Change-File
`onPress`, the mount `useEffect`) becomes a function from state to
state, together with the list of network calls it issued and the list
of `Alert.alert` popups it raised.  `Date.now()` readings are passed
in explicitly as natural numbers (one per `Date.now()` call site, in
program order); message identifiers, which the code builds with
`Date.now().toString()` and `(Date.now() + 1).toString()`, are kept as
the underlying numbers (`Nat.toString`/JS `Number.toString` being
injective, identifier equality is unchanged by this).
-/

namespace ClariMed

/-- A picked file, as built in `pickDocument` / `pickImage`:
`{ uri, name, type }`. -/
structure FileInfo where
  uri : String
  name : String
  type : String
deriving Repr, DecidableEq

/-- One transcript entry, as built throughout `ChatScreen`:
`{ id, text, isBot, timestamp }`.  `id` and `timestamp` hold the
`Date.now()` reading (see the file comment). -/
structure Message where
  id : Nat
  text : String
  isBot : Bool
  timestamp : Nat
deriving Repr, DecidableEq

/-- The React state of `ChatScreen`: `useState` hooks `messages`,
`inputText`, `loading`, `currentFile`, `hasUploadedFile`. -/
structure ChatState where
  messages : List Message
  inputText : String
  loading : Bool
  currentFile : Option FileInfo
  hasUploadedFile : Bool
deriving Repr, DecidableEq

/-- The body of an HTTP response as the JS code inspects it: either a
JSON object (of which the code reads the `success`, `answer`, `error`
and `chunks_count` fields, each possibly absent) or a plain string
(the `typeof err.response.data === 'string'` branch). -/
inductive RespData where
  | obj (success : Option Bool) (answer : Option String)
        (error : Option String) (chunksCount : Option Nat)
  | str (s : String)
deriving Repr, DecidableEq

/-- An axios response: `{ status, data }`. -/
structure AxiosResp where
  status : Nat
  data : RespData
deriving Repr, DecidableEq

/-- A JS `Error` as the catch blocks inspect it: `message`, optional
axios `code` (`'ECONNREFUSED'`, `'ECONNABORTED'`, …) and optional
attached HTTP response (absent for locally thrown `new Error(...)`
and for transport failures). -/
structure JsError where
  message : String
  code : Option String
  resp : Option AxiosResp
deriving Repr, DecidableEq

/-- Outcome of an awaited axios call: the promise resolved with a
response, or rejected with an error. -/
inductive AxiosOutcome where
  | resolved (r : AxiosResp)
  | rejected (e : JsError)
deriving Repr, DecidableEq

/-- A network call issued by the controller. -/
inductive NetCall where
  | upload (f : FileInfo)
  | query (question : String)
deriving Repr, DecidableEq

/-- Whitespace for the purposes of JS `String.prototype.trim`
(restricted to the ASCII whitespace actually typed in a chat box). -/
def isJsWhitespace (c : Char) : Bool :=
  c == ' ' || c == '\t' || c == '\n' || c == '\r'

/-- Model of JS `s.trim()`: strip leading and trailing whitespace.
(Structural, so that concrete runs reduce in the kernel.) -/
def jsTrim (s : String) : String :=
  ⟨((s.data.dropWhile isJsWhitespace).reverse.dropWhile isJsWhitespace).reverse⟩

/-- JS truthiness of `response.data`: an object is truthy, a string is
truthy iff non-empty. -/
def RespData.truthy : RespData → Bool
  | .obj _ _ _ _ => true
  | .str s => s != ""

/-- `data.success` field (absent on a string body). -/
def RespData.successField : RespData → Option Bool
  | .obj s _ _ _ => s
  | .str _ => none

/-- `data.answer` field (absent on a string body). -/
def RespData.answerField : RespData → Option String
  | .obj _ a _ _ => a
  | .str _ => none

/-- `data.error` field (absent on a string body). -/
def RespData.errorField : RespData → Option String
  | .obj _ _ e _ => e
  | .str _ => none

/-- `data.chunks_count` field (absent on a string body). -/
def RespData.chunksField : RespData → Option Nat
  | .obj _ _ _ c => c
  | .str _ => none

/-- JS `x || d` for an optional string field: the field when present
and truthy (non-empty), else the default. -/
def orDefault (x : Option String) (d : String) : String :=
  match x with
  | some s => if s = "" then d else s
  | none => d

/-- Rendering of `res.data.chunks_count` inside a template literal:
JS prints `undefined` for an absent field. -/
def chunksStr : Option Nat → String
  | some n => toString n
  | none => "undefined"

/-- The transient message text of `uploadFileToServer`:
`Uploading and processing ${fileInfo.name}...`. -/
def uploadingText (name : String) : String :=
  "Uploading and processing " ++ name ++ "..."

/-- The success message text of `uploadFileToServer`. -/
def uploadSuccessText (name : String) (chunks : Option Nat) : String :=
  "✅ Successfully processed " ++ name ++ "! Created " ++ chunksStr chunks ++
    " text chunks. You can now ask me questions about this document."

/-- The failure message text of `uploadFileToServer`. -/
def uploadFailText (name : String) : String :=
  "❌ Failed to process " ++ name ++ ". Please try again or choose a different file."

/-- The `if (res.data.success)` test of `uploadFileToServer`: truthy
`success` field on a resolved response; every rejected promise falls
to the `catch` block. -/
def uploadOk : AxiosOutcome → Bool
  | .resolved r => r.data.successField == some true
  | .rejected _ => false

/-- `uploadFileToServer(fileInfo)`: sets `loading`, appends the
transient "uploading" message (at clock `t1`), POSTs `/upload`, and on
resolution (at clock `t2`) filters the transient message out by id and
appends either the success message (setting `hasUploadedFile`) when
`res.data.success` is truthy, or the failure message plus an
`Alert.alert` otherwise (including every rejected promise: HTTP error
status, connection refusal, timeout).  `loading` is cleared in the
`finally` block on every path. -/
def uploadFileToServer (st : ChatState) (fileInfo : FileInfo) (t1 t2 : Nat)
    (outcome : AxiosOutcome) : ChatState × List NetCall × List (String × String) :=
  let uploadingMessage : Message := ⟨t1, uploadingText fileInfo.name, true, t1⟩
  let st1 : ChatState := { st with loading := true,
                                   messages := st.messages ++ [uploadingMessage] }
  if uploadOk outcome then
    let chunks : Option Nat := match outcome with
      | .resolved r => r.data.chunksField
      | .rejected _ => none
    ({ st1 with
        hasUploadedFile := true,
        messages := (st1.messages.filter (fun m => m.id != uploadingMessage.id)) ++
          [⟨t2, uploadSuccessText fileInfo.name chunks, true, t2⟩],
        loading := false },
     [NetCall.upload fileInfo], [])
  else
    ({ st1 with
        messages := (st1.messages.filter (fun m => m.id != uploadingMessage.id)) ++
          [⟨t2, uploadFailText fileInfo.name, true, t2⟩],
        loading := false },
     [NetCall.upload fileInfo],
     [("Upload Failed", "Please try again with a different file.")])

/-- The non-cancelled path of `pickDocument` / `pickImage`: store the
picked file in `currentFile`, then await `uploadFileToServer` on it. -/
def submitDocument (st : ChatState) (fileInfo : FileInfo) (t1 t2 : Nat)
    (outcome : AxiosOutcome) : ChatState × List NetCall × List (String × String) :=
  uploadFileToServer { st with currentFile := some fileInfo } fileInfo t1 t2 outcome

/-- The `try` block of `sendMessage` after the `/query` call settles:
either the answer string to display (`Sum.inl`) or the `Error` that
reaches the `catch` (`Sum.inr`).  Locally thrown errors carry no
`code` and no `response`. -/
def queryStep (outcome : AxiosOutcome) : Sum String JsError :=
  match outcome with
  | .resolved r =>
    if r.status = 200 && r.data.truthy then
      if r.data.successField == some false then
        .inr ⟨orDefault r.data.errorField "Backend returned unsuccessful response",
              none, none⟩
      else
        match r.data.answerField with
        | some a =>
          if jsTrim a != "" then .inl a
          else .inr ⟨"No answer received from the AI model", none, none⟩
        | none => .inr ⟨"No answer received from the AI model", none, none⟩
    else .inr ⟨"Invalid response from server", none, none⟩
  | .rejected e => .inr e

/-- `err.response?.data?.error`, as a truthy string. -/
def JsError.respDataError (e : JsError) : Option String :=
  match e.resp with
  | some r => match r.data.errorField with
    | some s => if s = "" then none else some s
    | none => none
  | none => none

/-- `err.response?.data` when it is a (truthy) string. -/
def JsError.respDataString (e : JsError) : Option String :=
  match e.resp with
  | some ⟨_, .str s⟩ => if s = "" then none else some s
  | _ => none

/-- `err.response?.status`. -/
def JsError.respStatus (e : JsError) : Option Nat :=
  match e.resp with
  | some r => some r.status
  | none => none

/-- The `catch` block of `sendMessage`: the if/else-if chain that
picks `errorText`, in source order. -/
def classifyQueryError (err : JsError) : String :=
  match err.respDataError with
  | some e => "Error: " ++ e
  | none =>
    match err.respDataString with
    | some s => "Server error: " ++ s
    | none =>
      if err.message != "" && err.message != "Request failed with status code 500" then
        "Error: " ++ err.message
      else if err.respStatus == some 400 then
        "Bad request - please check if you have uploaded a document first."
      else if (match err.respStatus with | some s => decide (500 ≤ s) | none => false) then
        "Server error - the AI service might be busy. Please try again in a moment."
      else if err.code == some "ECONNREFUSED" then
        "Cannot connect to server - please check if the backend is running."
      else if err.code == some "ECONNABORTED" then
        "Request timed out - the AI is taking too long to respond. Please try a shorter question."
      else
        "Sorry, I encountered an error while processing your question. Please try again."

/-- The single bot message text appended by `sendMessage` once the
`/query` call settles: the answer on the success path, the output of
the `catch` classifier on every other path. -/
def replyText (outcome : AxiosOutcome) : String :=
  match queryStep outcome with
  | .inl a => a
  | .inr e => classifyQueryError e

/-- `sendMessage()`: returns unchanged on empty trimmed input; alerts
(without touching state) when no file was uploaded; otherwise appends
the user message (clock `t1`), clears the input, sets `loading`, POSTs
`/query`, and when the call settles (clock `t2`) appends exactly one
bot message — the answer on success, `classifyQueryError` on any
failure — with id `t2 + 1` (the code's `Date.now() + 1`), clearing
`loading` in the `finally` block. -/
def sendMessage (st : ChatState) (t1 t2 : Nat) (outcome : AxiosOutcome) :
    ChatState × List NetCall × List (String × String) :=
  if jsTrim st.inputText = "" then (st, [], [])
  else if st.hasUploadedFile = false then
    (st, [], [("No File Uploaded", "Please upload a medical report first to start chatting.")])
  else
    let questionText := jsTrim st.inputText
    let userMessage : Message := ⟨t1, questionText, false, t1⟩
    let st1 : ChatState := { st with messages := st.messages ++ [userMessage],
                                     inputText := "", loading := true }
    ({ st1 with messages := st1.messages ++ [⟨t2 + 1, replyText outcome, true, t2⟩],
                loading := false },
     [NetCall.query questionText], [])

/-- Pressing the Send button: the `TouchableOpacity` has
`disabled={!hasUploadedFile || !inputText.trim() || loading}`, so
`onPress={sendMessage}` only fires when none of those hold. -/
def pressSend (st : ChatState) (t1 t2 : Nat) (outcome : AxiosOutcome) :
    ChatState × List NetCall × List (String × String) :=
  if !st.hasUploadedFile || jsTrim st.inputText = "" || st.loading then (st, [], [])
  else sendMessage st t1 t2 outcome

/-- The Change-File button's `onPress`: unconditionally clears
`hasUploadedFile` and `currentFile` and replaces the whole message
list with one fresh prompt (clock `t`).  No network call, no alert. -/
def resetDocument (st : ChatState) (t : Nat) :
    ChatState × List NetCall × List (String × String) :=
  ({ st with hasUploadedFile := false,
             currentFile := none,
             messages := [⟨t, "Please upload a new medical report to continue chatting.", true, t⟩] },
   [], [])

/-- Navigation params of `ChatScreen`: `route.params`. -/
structure RouteParams where
  hasAnalyzedFile : Bool
  fileInfo : Option FileInfo
deriving Repr, DecidableEq

/-- The state before the mount `useEffect` runs: the `useState`
initialisers. -/
def emptyState : ChatState :=
  { messages := [], inputText := "", loading := false,
    currentFile := none, hasUploadedFile := false }

/-- The mount `useEffect`: seeds the session from `route.params` when
the user arrives from the analytics screen, else shows the upload
prompt (clock `t`). -/
def initChat (params : Option RouteParams) (t : Nat) : ChatState :=
  match params with
  | some p =>
    if p.hasAnalyzedFile then
      { emptyState with
          hasUploadedFile := true,
          currentFile := p.fileInfo,
          messages := [⟨t, "Great! I can see you've already analyzed a medical report. You can now ask me questions about it. What would you like to know?", true, t⟩] }
    else
      { emptyState with
          messages := [⟨t, "Hello! To start chatting about a medical report, please upload a PDF or image first using the buttons below.", true, t⟩] }
  | none =>
    { emptyState with
        messages := [⟨t, "Hello! To start chatting about a medical report, please upload a PDF or image first using the buttons below.", true, t⟩] }

/-- One user-level operation on the session, with its clock readings
and the outcome the network produced for it. -/
inductive Op where
  | doc (f : FileInfo) (t1 t2 : Nat) (outcome : AxiosOutcome)
  | question (text : String) (t1 t2 : Nat) (outcome : AxiosOutcome)
  | reset (t : Nat)
deriving Repr

/-- Run one operation (typing the question text and then calling
`sendMessage`, picking the file and uploading it, or pressing
Change File). -/
def stepOp (st : ChatState) (op : Op) : ChatState :=
  match op with
  | .doc f t1 t2 outcome => (submitDocument st f t1 t2 outcome).1
  | .question text t1 t2 outcome =>
    (sendMessage { st with inputText := text } t1 t2 outcome).1
  | .reset t => (resetDocument st t).1

/-- Run a sequence of operations. -/
def runOps (st : ChatState) (ops : List Op) : ChatState :=
  match ops with
  | [] => st
  | op :: rest => runOps (stepOp st op) rest

/-- First character of a string, used to separate the fixed prefixes
of the controller's message texts. -/
def firstChar (s : String) : Option Char :=
  s.data.head?

lemma firstChar_append (s t : String) (c : Char) (h : firstChar s = some c) :
    firstChar (s ++ t) = some c := by
  obtain ⟨l⟩ := s
  obtain ⟨l'⟩ := t
  cases l with
  | nil => simp [firstChar] at h
  | cons a as =>
    have hc : firstChar (String.mk (a :: as)) = some a := rfl
    rw [hc] at h
    have : firstChar (String.mk (a :: as) ++ String.mk l') = some a := rfl
    rw [this, h]

lemma uploadingText_firstChar (n : String) :
    firstChar (uploadingText n) = some 'U' := by
  unfold uploadingText
  exact firstChar_append _ _ _ (firstChar_append _ _ _ (by decide))

lemma uploadSuccessText_firstChar (n : String) (c : Option Nat) :
    firstChar (uploadSuccessText n c) = some '✅' := by
  unfold uploadSuccessText
  exact firstChar_append _ _ _ (firstChar_append _ _ _
    (firstChar_append _ _ _ (firstChar_append _ _ _ (by decide))))

lemma uploadFailText_firstChar (n : String) :
    firstChar (uploadFailText n) = some '❌' := by
  unfold uploadFailText
  exact firstChar_append _ _ _ (firstChar_append _ _ _ (by decide))

lemma ne_of_firstChar {s t : String} (h : firstChar s ≠ firstChar t) : s ≠ t :=
  fun e => h (congrArg firstChar e)

lemma uploadSuccessText_ne_uploadingText (n n' : String) (c : Option Nat) :
    uploadSuccessText n c ≠ uploadingText n' := by
  apply ne_of_firstChar
  rw [uploadSuccessText_firstChar, uploadingText_firstChar]
  decide

lemma uploadFailText_ne_uploadingText (n n' : String) :
    uploadFailText n ≠ uploadingText n' := by
  apply ne_of_firstChar
  rw [uploadFailText_firstChar, uploadingText_firstChar]
  decide

/-- The id-based removal of the transient message: filtering
`l ++ [x]` by `id ≠ x.id` gives back `l` when no entry of `l` carries
that id. -/
lemma filter_removes_transient (l : List Message) (t : Nat) (x : Message)
    (hx : x.id = t) (h : ∀ m ∈ l, m.id ≠ t) :
    (l ++ [x]).filter (fun m => m.id != t) = l := by
  rw [List.filter_append]
  have h1 : l.filter (fun m => m.id != t) = l :=
    List.filter_eq_self.mpr (fun m hm => by simpa using h m hm)
  have h2 : [x].filter (fun m => m.id != t) = [] := by simp [hx]
  rw [h1, h2, List.append_nil]

lemma stepOp_loading_false (st : ChatState) (op : Op) (h : st.loading = false) :
    (stepOp st op).loading = false := by
  cases op with
  | doc f t1 t2 outcome =>
    simp only [stepOp, submitDocument, uploadFileToServer]
    split <;> rfl
  | question text t1 t2 outcome =>
    simp only [stepOp, sendMessage]
    split
    · exact h
    · split
      · exact h
      · rfl
  | reset t => exact h

/-- C1: starting from a non-pending session, every operation of every
sequence of submitDocument / submitQuestion (/ reset) invocations
leaves `pending` (= `loading`) false again when it completes,
whatever the network outcome; since this holds of every state reached
along the way, no operation leaves the session stuck. -/
theorem C1_pending_always_clears (st : ChatState) (ops : List Op)
    (h : st.loading = false) : (runOps st ops).loading = false := by
  induction ops generalizing st with
  | nil => exact h
  | cons op rest ih => exact ih _ (stepOp_loading_false st op h)

/-- C1 witness: a concrete two-operation run (a timed-out upload then
a failed query) ends with `loading = false`. -/
theorem C1_pending_always_clears_witness :
    emptyState.loading = false ∧
    (runOps emptyState
      [ Op.doc ⟨"file://a", "a.pdf", "application/pdf"⟩ 1 2
          (.rejected ⟨"timeout of 60000ms exceeded", some "ECONNABORTED", none⟩),
        Op.question "what is my hemoglobin" 3 4
          (.rejected ⟨"Network Error", some "ECONNREFUSED", none⟩) ]).loading = false :=
  ⟨rfl, C1_pending_always_clears emptyState _ rfl⟩

/-- C2: pressing Send while an operation is pending (`loading = true`)
is rejected locally — the button is disabled, so no network call is
issued and the state (pending flag, document flags, message log,
input) is left unchanged. -/
theorem C2_pending_press_rejected (st : ChatState) (t1 t2 : Nat)
    (outcome : AxiosOutcome) (h : st.loading = true) :
    pressSend st t1 t2 outcome = (st, [], []) := by
  simp [pressSend, h]

/-- C2 witness: pressing Send in a concrete ready-but-pending state
with non-empty input changes nothing and issues no call. -/
theorem C2_pending_press_rejected_witness :
    ({ emptyState with hasUploadedFile := true, inputText := "q", loading := true } : ChatState).loading = true ∧
    pressSend { emptyState with hasUploadedFile := true, inputText := "q", loading := true } 5 6
        (.resolved ⟨200, .obj none (some "ans") none none⟩) =
      ({ emptyState with hasUploadedFile := true, inputText := "q", loading := true }, [], []) :=
  ⟨rfl, C2_pending_press_rejected _ 5 6 _ rfl⟩

/-- C3: `sendMessage` invoked while no document has been uploaded
issues no network call, appends nothing to the transcript (so at most
one advisory — the advisory is an `Alert` popup, not a transcript
entry), and leaves the whole state, in particular `hasUploadedFile`,
`currentFile` and `loading`, unchanged. -/
theorem C3_no_document_no_call (st : ChatState) (t1 t2 : Nat)
    (outcome : AxiosOutcome) (h : st.hasUploadedFile = false) :
    (sendMessage st t1 t2 outcome).1 = st ∧
    (sendMessage st t1 t2 outcome).2.1 = [] ∧
    (sendMessage st t1 t2 outcome).2.2.length ≤ 1 := by
  by_cases hc : jsTrim st.inputText = "" <;> simp [sendMessage, hc, h]

/-- C3 witness: a concrete no-document state with non-empty input:
state unchanged, no network call, one alert. -/
theorem C3_no_document_no_call_witness :
    ({ emptyState with inputText := "hello" } : ChatState).hasUploadedFile = false ∧
    (sendMessage { emptyState with inputText := "hello" } 7 8
        (.resolved ⟨200, .obj none (some "ans") none none⟩)).1 =
      { emptyState with inputText := "hello" } ∧
    (sendMessage { emptyState with inputText := "hello" } 7 8
        (.resolved ⟨200, .obj none (some "ans") none none⟩)).2.1 = [] :=
  ⟨rfl, (C3_no_document_no_call _ 7 8 _ rfl).1,
        (C3_no_document_no_call _ 7 8 _ rfl).2.1⟩

/-- C9: the Change-File action, from any state whatsoever, yields
`hasUploadedFile = false`, `currentFile = none` and a message log that
is exactly one fresh prompt message, and issues no network call. -/
theorem C9_reset_always_fresh (st : ChatState) (t : Nat) :
    (resetDocument st t).1.hasUploadedFile = false ∧
    (resetDocument st t).1.currentFile = none ∧
    (resetDocument st t).1.messages =
      [⟨t, "Please upload a new medical report to continue chatting.", true, t⟩] ∧
    (resetDocument st t).2.1 = [] :=
  ⟨rfl, rfl, rfl, rfl⟩

/-- C4: after a `submitDocument` whose upload resolves with a truthy
`success` flag, `hasUploadedFile = true`, `currentFile` is the picked
document, exactly one success message (quoting the chunk count) has
been appended to the log, no "Uploading and processing …" placeholder
remains, and `loading` is cleared.  (The two hypotheses on the prior
log say that no earlier message reuses the placeholder's `Date.now()`
id and that no earlier placeholder was left behind.) -/
theorem C4_upload_success_effects (st : ChatState) (doc : FileInfo) (t1 t2 : Nat)
    (r : AxiosResp) (hok : r.data.successField = some true)
    (hid : ∀ m ∈ st.messages, m.id ≠ t1)
    (hpl : ∀ m ∈ st.messages, ∀ name, m.text ≠ uploadingText name) :
    (submitDocument st doc t1 t2 (.resolved r)).1.hasUploadedFile = true ∧
    (submitDocument st doc t1 t2 (.resolved r)).1.currentFile = some doc ∧
    (submitDocument st doc t1 t2 (.resolved r)).1.messages =
      st.messages ++ [⟨t2, uploadSuccessText doc.name r.data.chunksField, true, t2⟩] ∧
    (∀ m ∈ (submitDocument st doc t1 t2 (.resolved r)).1.messages,
      ∀ name, m.text ≠ uploadingText name) ∧
    (submitDocument st doc t1 t2 (.resolved r)).1.loading = false := by
  have hok' : uploadOk (.resolved r) = true := by simp [uploadOk, hok]
  have hmsgs : (submitDocument st doc t1 t2 (.resolved r)).1.messages =
      st.messages ++ [⟨t2, uploadSuccessText doc.name r.data.chunksField, true, t2⟩] := by
    simp only [submitDocument, uploadFileToServer, hok', if_true]
    rw [filter_removes_transient st.messages t1 _ rfl hid]
  refine ⟨?_, ?_, hmsgs, ?_, ?_⟩
  · simp only [submitDocument, uploadFileToServer, hok', if_true]
  · simp only [submitDocument, uploadFileToServer, hok', if_true]
  · intro m hm name
    rw [hmsgs] at hm
    rcases List.mem_append.mp hm with h | h
    · exact hpl m h name
    · rcases List.mem_singleton.mp h with rfl
      exact uploadSuccessText_ne_uploadingText doc.name name r.data.chunksField
  · simp only [submitDocument, uploadFileToServer, hok', if_true]

/-- C4 witness: a concrete upload of `a.pdf` returning
`{success: true, chunks_count: 3}` into the empty session. -/
theorem C4_upload_success_effects_witness :
    (⟨200, RespData.obj (some true) none none (some 3)⟩ : AxiosResp).data.successField = some true ∧
    (∀ m ∈ emptyState.messages, m.id ≠ 1) ∧
    (submitDocument emptyState ⟨"file://a", "a.pdf", "application/pdf"⟩ 1 2
        (.resolved ⟨200, .obj (some true) none none (some 3)⟩)).1.messages =
      emptyState.messages ++
        [⟨2, uploadSuccessText "a.pdf" (some 3), true, 2⟩] :=
  ⟨rfl, by simp [emptyState],
   (C4_upload_success_effects emptyState ⟨"file://a", "a.pdf", "application/pdf"⟩ 1 2
      ⟨200, .obj (some true) none none (some 3)⟩ rfl
      (by simp [emptyState]) (by simp [emptyState])).2.2.1⟩

/-- C5: after a `submitDocument` whose upload fails (any rejected
promise — HTTP error status, connection refusal, timeout — or a
response without a truthy `success` flag), `hasUploadedFile` keeps its
prior value, exactly one failure message has been appended, no
"Uploading and processing …" placeholder remains, and
`loading = false`. -/
theorem C5_upload_failure_effects (st : ChatState) (doc : FileInfo) (t1 t2 : Nat)
    (outcome : AxiosOutcome) (hfail : uploadOk outcome = false)
    (hid : ∀ m ∈ st.messages, m.id ≠ t1)
    (hpl : ∀ m ∈ st.messages, ∀ name, m.text ≠ uploadingText name) :
    (submitDocument st doc t1 t2 outcome).1.hasUploadedFile = st.hasUploadedFile ∧
    (submitDocument st doc t1 t2 outcome).1.messages =
      st.messages ++ [⟨t2, uploadFailText doc.name, true, t2⟩] ∧
    (∀ m ∈ (submitDocument st doc t1 t2 outcome).1.messages,
      ∀ name, m.text ≠ uploadingText name) ∧
    (submitDocument st doc t1 t2 outcome).1.loading = false := by
  have hmsgs : (submitDocument st doc t1 t2 outcome).1.messages =
      st.messages ++ [⟨t2, uploadFailText doc.name, true, t2⟩] := by
    simp only [submitDocument, uploadFileToServer, hfail, Bool.false_eq_true, if_false]
    rw [filter_removes_transient st.messages t1 _ rfl hid]
  refine ⟨?_, hmsgs, ?_, ?_⟩
  · simp only [submitDocument, uploadFileToServer, hfail, Bool.false_eq_true, if_false]
  · intro m hm name
    rw [hmsgs] at hm
    rcases List.mem_append.mp hm with h | h
    · exact hpl m h name
    · rcases List.mem_singleton.mp h with rfl
      exact uploadFailText_ne_uploadingText doc.name name
  · simp only [submitDocument, uploadFileToServer, hfail, Bool.false_eq_true, if_false]

/-- C5 witness: a concrete connection-refused upload into the empty
session leaves `hasUploadedFile` false and appends one failure
message. -/
theorem C5_upload_failure_effects_witness :
    uploadOk (.rejected ⟨"Network Error", some "ECONNREFUSED", none⟩) = false ∧
    (submitDocument emptyState ⟨"file://a", "a.pdf", "application/pdf"⟩ 1 2
        (.rejected ⟨"Network Error", some "ECONNREFUSED", none⟩)).1.hasUploadedFile =
      emptyState.hasUploadedFile ∧
    (submitDocument emptyState ⟨"file://a", "a.pdf", "application/pdf"⟩ 1 2
        (.rejected ⟨"Network Error", some "ECONNREFUSED", none⟩)).1.messages =
      emptyState.messages ++ [⟨2, uploadFailText "a.pdf", true, 2⟩] :=
  ⟨rfl,
   (C5_upload_failure_effects emptyState ⟨"file://a", "a.pdf", "application/pdf"⟩ 1 2
      (.rejected ⟨"Network Error", some "ECONNREFUSED", none⟩) rfl
      (by simp [emptyState]) (by simp [emptyState])).1,
   (C5_upload_failure_effects emptyState ⟨"file://a", "a.pdf", "application/pdf"⟩ 1 2
      (.rejected ⟨"Network Error", some "ECONNREFUSED", none⟩) rfl
      (by simp [emptyState]) (by simp [emptyState])).2.1⟩

/-- C6: a `sendMessage` that passes its preconditions (non-empty
trimmed input, document uploaded) appends the user message first and
then exactly one bot message, so the resulting transcript ends with
the user's question immediately followed by a single assistant
entry — no other user-origin message in between. -/
theorem C6_question_then_single_reply (st : ChatState) (t1 t2 : Nat)
    (outcome : AxiosOutcome) (hne : jsTrim st.inputText ≠ "")
    (hdoc : st.hasUploadedFile = true) :
    ∃ b : Message, b.isBot = true ∧
      (sendMessage st t1 t2 outcome).1.messages =
        st.messages ++ [⟨t1, jsTrim st.inputText, false, t1⟩, b] := by
  refine ⟨⟨t2 + 1, replyText outcome, true, t2⟩, rfl, ?_⟩
  simp [sendMessage, hne, hdoc]

/-- C6 witness: a concrete successful question in a ready session:
the transcript ends with the user message then the bot's answer. -/
theorem C6_question_then_single_reply_witness :
    jsTrim ("what is my hemoglobin" : String) ≠ "" ∧
    (∃ b : Message, b.isBot = true ∧
      (sendMessage { emptyState with hasUploadedFile := true, inputText := "what is my hemoglobin" } 3 4
          (.resolved ⟨200, .obj none (some "Your level is normal.") none none⟩)).1.messages =
        ({ emptyState with hasUploadedFile := true, inputText := "what is my hemoglobin" } : ChatState).messages ++
          [⟨3, jsTrim "what is my hemoglobin", false, 3⟩, b]) :=
  ⟨by decide,
   C6_question_then_single_reply _ 3 4 _ (by decide) rfl⟩

/-- C10: `submitDocument` stores the picked document in `currentFile`
before the upload settles, so after a failed upload `currentFile` is
the document whose upload failed while `hasUploadedFile` keeps its
prior value. -/
theorem C10_failed_upload_keeps_picked_file (st : ChatState) (doc : FileInfo)
    (t1 t2 : Nat) (outcome : AxiosOutcome) (hfail : uploadOk outcome = false) :
    (submitDocument st doc t1 t2 outcome).1.currentFile = some doc ∧
    (submitDocument st doc t1 t2 outcome).1.hasUploadedFile = st.hasUploadedFile := by
  constructor <;>
    simp only [submitDocument, uploadFileToServer, hfail, Bool.false_eq_true, if_false]

/-- C10 witness: a concrete timed-out upload of `b.jpg` over a session
whose active document was `a.pdf`: `currentFile` is now `b.jpg`,
`hasUploadedFile` still true. -/
theorem C10_failed_upload_keeps_picked_file_witness :
    uploadOk (.rejected ⟨"timeout of 60000ms exceeded", some "ECONNABORTED", none⟩) = false ∧
    (submitDocument { emptyState with hasUploadedFile := true, currentFile := some ⟨"file://a", "a.pdf", "application/pdf"⟩ }
        ⟨"file://b", "b.jpg", "image/jpeg"⟩ 9 10
        (.rejected ⟨"timeout of 60000ms exceeded", some "ECONNABORTED", none⟩)).1.currentFile =
      some ⟨"file://b", "b.jpg", "image/jpeg"⟩ ∧
    (submitDocument { emptyState with hasUploadedFile := true, currentFile := some ⟨"file://a", "a.pdf", "application/pdf"⟩ }
        ⟨"file://b", "b.jpg", "image/jpeg"⟩ 9 10
        (.rejected ⟨"timeout of 60000ms exceeded", some "ECONNABORTED", none⟩)).1.hasUploadedFile =
      ({ emptyState with hasUploadedFile := true, currentFile := some ⟨"file://a", "a.pdf", "application/pdf"⟩ } : ChatState).hasUploadedFile :=
  ⟨rfl,
   (C10_failed_upload_keeps_picked_file _ _ 9 10
      (.rejected ⟨"timeout of 60000ms exceeded", some "ECONNABORTED", none⟩) rfl).1,
   (C10_failed_upload_keeps_picked_file _ _ 9 10
      (.rejected ⟨"timeout of 60000ms exceeded", some "ECONNABORTED", none⟩) rfl).2⟩

/-- C7 counterexample: an HTTP 400 rejection carrying axios's default
message `Request failed with status code 400` (and no response body)
is answered with the generic `Error: …` text, not with the claimed
"Bad request - please check if you have uploaded a document first."
message: the `err.message` branch of the classifier fires before the
status-code branches. -/
theorem C7_http400_message_counterexample :
    (sendMessage { emptyState with hasUploadedFile := true, inputText := "q" } 1 2
        (.rejected ⟨"Request failed with status code 400", none,
                    some ⟨400, .obj none none none none⟩⟩)).1.messages.map Message.text =
      ["q", "Error: Request failed with status code 400"] ∧
    ("Error: Request failed with status code 400" : String) ≠
      "Bad request - please check if you have uploaded a document first." := by
  constructor
  · rfl
  · decide

/-- C7 amended: the classifier first uses a truthy server-supplied
`error` field, then a string response body, then the error's own
`message` whenever it is non-empty and not exactly
`Request failed with status code 500`; only when all of those yield
nothing do the spec's status/code rules apply — 400 → "upload a
document first", status ≥ 500 → "server busy", `ECONNREFUSED` →
"backend unreachable", `ECONNABORTED` (timeout) → "question too
slow". -/
theorem C7_classification_order (err : JsError)
    (hde : err.respDataError = none) (hds : err.respDataString = none) :
    ((err.message ≠ "" ∧ err.message ≠ "Request failed with status code 500") →
      classifyQueryError err = "Error: " ++ err.message) ∧
    ((err.message = "" ∨ err.message = "Request failed with status code 500") →
      (err.respStatus = some 400 →
        classifyQueryError err =
          "Bad request - please check if you have uploaded a document first.") ∧
      (∀ s, err.respStatus = some s → 500 ≤ s →
        classifyQueryError err =
          "Server error - the AI service might be busy. Please try again in a moment.") ∧
      (err.resp = none → err.code = some "ECONNREFUSED" →
        classifyQueryError err =
          "Cannot connect to server - please check if the backend is running.") ∧
      (err.resp = none → err.code = some "ECONNABORTED" →
        classifyQueryError err =
          "Request timed out - the AI is taking too long to respond. Please try a shorter question.")) := by
  unfold classifyQueryError
  rw [hde, hds]
  constructor
  · rintro ⟨h1, h2⟩
    simp [h1, h2]
  · intro hmsg
    have hcond : (err.message != "" && err.message != "Request failed with status code 500") = false := by
      rcases hmsg with h | h <;> simp [h]
    rw [hcond]
    refine ⟨?_, ?_, ?_, ?_⟩
    · intro h400
      simp [h400]
    · intro s hs h500
      have hne400 : err.respStatus ≠ some 400 := by
        rw [hs]; intro hcontra
        have hval : s = 400 := by
          have := Option.some.inj hcontra
          omega
        omega
      simp only [Bool.false_eq_true, if_false]
      rw [if_neg (by simpa using hne400)]
      rw [if_pos (by rw [hs]; simpa using h500)]
    · intro hresp hcode
      have hstat : err.respStatus = none := by simp [JsError.respStatus, hresp]
      simp [hstat, hcode]
    · intro hresp hcode
      have hstat : err.respStatus = none := by simp [JsError.respStatus, hresp]
      simp [hstat, hcode]

/-- C7 amended witness: with an empty message, no response body and
status 400, the classifier does produce the "upload a document first"
advisory; with a timeout code it produces the timeout advisory. -/
theorem C7_classification_order_witness :
    (⟨"", none, some ⟨400, RespData.obj none none none none⟩⟩ : JsError).respDataError = none ∧
    classifyQueryError ⟨"", none, some ⟨400, RespData.obj none none none none⟩⟩ =
      "Bad request - please check if you have uploaded a document first." ∧
    classifyQueryError ⟨"", some "ECONNABORTED", none⟩ =
      "Request timed out - the AI is taking too long to respond. Please try a shorter question." :=
  ⟨rfl,
   ((C7_classification_order ⟨"", none, some ⟨400, RespData.obj none none none none⟩⟩
      rfl rfl).2 (Or.inl rfl)).1 rfl,
   ((C7_classification_order ⟨"", some "ECONNABORTED", none⟩
      rfl rfl).2 (Or.inl rfl)).2.2.2 rfl rfl⟩

/-- C8: message identifiers are NOT unique within a session.  In the
concrete run below every `Date.now()` reading is strictly larger than
the one before (100, 101, …, 106), yet the reply to the second
question gets id `104 + 1 = 105` (the code's `Date.now() + 1`) and the
next question's user message, created at clock 105, gets the same id
105 — so the final log holds two messages with identifier 105,
violating the uniqueness invariant the spec states and the FlatList
`keyExtractor={item => item.id}` relies on. -/
theorem C8_duplicate_identifiers :
    (runOps (initChat none 100)
      [ .doc ⟨"file://a", "a.pdf", "application/pdf"⟩ 101 102
          (.resolved ⟨200, .obj (some true) none none (some 3)⟩),
        .question "hi" 103 104
          (.resolved ⟨200, .obj none (some "ok") none none⟩),
        .question "again" 105 106
          (.resolved ⟨200, .obj none (some "sure") none none⟩) ]).messages.map Message.id =
      [100, 102, 103, 105, 105, 107] ∧
    ¬ ((runOps (initChat none 100)
      [ .doc ⟨"file://a", "a.pdf", "application/pdf"⟩ 101 102
          (.resolved ⟨200, .obj (some true) none none (some 3)⟩),
        .question "hi" 103 104
          (.resolved ⟨200, .obj none (some "ok") none none⟩),
        .question "again" 105 106
          (.resolved ⟨200, .obj none (some "sure") none none⟩) ]).messages.map Message.id).Nodup := by
  constructor
  · decide
  · decide

end ClariMed
